import Mathlib

/-!
Verification development for the VAT review tool (`vat_tool.py`).

The embedding models:
* `convert_date`   — the Date Normalizer (heterogeneous date-like cell → canonical
  timestamp or invalid).  Timestamps are modeled as rational numbers of seconds
  since the Unix epoch 1970-01-01; the two parsing attempts made by the pandas
  library on a raw cell (`pd.to_datetime` text parsing, `pd.to_numeric`) are
  modeled by the two fields of `RawCell`, since their internals belong to the
  external library, while every branch on the parsed number is translated from
  the source.  Where the source can construct an out-of-range `Timestamp` (the
  epoch-seconds/nanoseconds branches), the int64-nanosecond range limit and the
  `OutOfBoundsDatetime`-to-`NaT` recovery of the bare `except` are modeled too.
* `process_transactions` — the Transaction Filter & Aggregator.  The ambient
  wall-clock read (`datetime.now()`) inside the function body is made an explicit
  `now` argument, following the usual translation of ambient state into explicit
  state passing.
* `check_disclosures` — the Reconciliation Engine, with pandas missing values
  (`NaN`) modeled as `Option` and pandas `merge` modeled as list joins with the
  same multiplicity semantics (each left row paired with every matching right
  row, or kept once with misses when no right row matches).

Calendar arithmetic (needed for period bucketing and the spreadsheet serial-date
epoch) uses the standard civil-from-days / days-from-civil algorithms over ℕ,
with day 0 = 0000-03-01 of the proleptic Gregorian calendar.
-/

namespace VatTool

/-- Gregorian leap-year test. -/
def isLeap (y : ℕ) : Bool :=
  (y % 4 == 0 && y % 100 != 0) || (y % 400 == 0)

/-- Number of days in month `m` of year `y` (1-based months). -/
def daysInMonth (y m : ℕ) : ℕ :=
  if m = 2 then (if isLeap y then 29 else 28)
  else if m = 4 ∨ m = 6 ∨ m = 9 ∨ m = 11 then 30
  else 31

/-- Day number of the civil date `(y, m, d)`, counted from 0000-03-01
(proleptic Gregorian).  Valid for `y ≥ 1`, `1 ≤ m ≤ 12`, `1 ≤ d`. -/
def daysFromCivil (y m d : ℕ) : ℕ :=
  let y2 := y - (if m ≤ 2 then 1 else 0)
  let era := y2 / 400
  let yoe := y2 - era * 400
  let mp := (m + 9) % 12
  let doy := (153 * mp + 2) / 5 + d - 1
  let doe := yoe * 365 + yoe / 4 - yoe / 100 + doy
  era * 146097 + doe

/-- Civil date `(y, m, d)` of a day number counted from 0000-03-01. -/
def civilFromDays (z : ℕ) : ℕ × ℕ × ℕ :=
  let era := z / 146097
  let doe := z % 146097
  let yoe := (doe - doe / 1460 + doe / 36524 - doe / 146096) / 365
  let y := yoe + era * 400
  let doy := doe - (365 * yoe + yoe / 4 - yoe / 100)
  let mp := (5 * doy + 2) / 153
  let d := doy - (153 * mp + 2) / 5 + 1
  let m := if mp < 10 then mp + 3 else mp - 9
  (if m ≤ 2 then y + 1 else y, m, d)

/-- Day number of the Unix epoch 1970-01-01. -/
def epoch1970 : ℕ := daysFromCivil 1970 1 1

/-- Signed day count of a civil date from the Unix epoch. -/
def unixDays (y m d : ℕ) : ℤ := (daysFromCivil y m d : ℤ) - (epoch1970 : ℤ)

/-- A canonical timestamp: rational seconds since the Unix epoch. -/
abbrev Ts := ℚ

/-- Timestamp (seconds since the Unix epoch) of midnight of a civil date. -/
def unixSec (y m d : ℕ) : Ts := (unixDays y m d : ℚ) * 86400

/-- Day number (from the Unix epoch) containing a timestamp. -/
def tsDayNumber (t : Ts) : ℤ := (t / 86400).floor

/-- Civil date containing a timestamp. -/
def tsCivil (t : Ts) : ℕ × ℕ × ℕ :=
  civilFromDays ((tsDayNumber t + (epoch1970 : ℤ)).toNat)

/-- Year and month containing a timestamp. -/
def tsYear (t : Ts) : ℕ := (tsCivil t).1

def tsMonth (t : Ts) : ℕ := (tsCivil t).2.1

/-- A raw date-like spreadsheet cell, modeled by the outcomes of the two parse
attempts the source performs on it: `asDate` is the result of general date-text
parsing (`pd.to_datetime(value, errors='coerce')`), `asNum` the result of
numeric parsing (`pd.to_numeric(value, errors='coerce')`); `none` is `NaT`/`NaN`. -/
structure RawCell where
  asDate : Option Ts
  asNum : Option ℚ
deriving DecidableEq

/-- Timestamp of the legacy-spreadsheet serial-date epoch 1899-12-30. -/
def serialEpochSec : Ts := unixSec 1899 12 30

/-- The Date Normalizer (`convert_date` in `vat_tool.py`): text parse first;
otherwise numeric parse, then day-serial / epoch-seconds / epoch-nanoseconds
branching on the magnitude of the number; anything else is invalid (`NaT`).

The epoch branches call `pd.to_datetime(value, unit='s'/'ns')`, which builds an
int64-nanosecond `Timestamp` and raises `OutOfBoundsDatetime` when the value in
nanoseconds falls outside `[-9223372036854775807, 9223372036854775807]`; the
bare `except` converts that to `NaT`, modeled by the inner range tests.  The
day-serial branch needs no such test: serials below 100000 days stay inside the
representable range (about year 2173, before the 2262 limit). -/
def convert_date (c : RawCell) : Option Ts :=
  match c.asDate with
  | some d => some d
  | none =>
    match c.asNum with
    | none => none
    | some n =>
      if 0 < n ∧ n < 100000 then some (serialEpochSec + n * 86400)
      else if 1000000000 < n ∧ n < 1000000000000000 then
        if (-9223372036854775807 : ℚ) ≤ n * 1000000000 ∧
            n * 1000000000 ≤ 9223372036854775807 then some n
        else none
      else if n > 1000000000000000 then
        if (-9223372036854775807 : ℚ) ≤ n ∧ n ≤ 9223372036854775807 then
          some (n / 1000000000)
        else none
      else none

/-! ### Period assignment (Period Assigner) -/

/-- Four-month bucket start month: `((month - 1) // 4) * 4 + 1` (line 44). -/
def fourMonthBucket (m : ℕ) : ℕ := ((m - 1) / 4) * 4 + 1

/-- Start month of the standard calendar period containing month `m` for a
pandas period frequency tag (`to_period` on line 52): `M` months, `2M`
two-month pairs, `Q` quarters, `6M` halves, `Y` years. -/
def stdBucketStart (freq : String) (m : ℕ) : ℕ :=
  if freq = "M" then m
  else if freq = "2M" then ((m - 1) / 2) * 2 + 1
  else if freq = "Q" then ((m - 1) / 3) * 3 + 1
  else if freq = "6M" then ((m - 1) / 6) * 6 + 1
  else 1

/-- A reporting-period identifier.  For the custom `4M` policy the source keys
on the string `{year}-{bucket:02}` built from year and bucket start month; for
the standard policies it keys on the pandas `Period` of the invoice date.  Both
are determined by (frequency tag, year, bucket start month), which we keep
structured; display strings are produced separately. -/
inductive PeriodKey where
  | fourM (year monthGroup : ℕ)
  | std (freqTag : String) (year bucketMonth : ℕ)
deriving DecidableEq

/-- Period key of a timestamp under a frequency tag (lines 43-52).  Unknown
tags fall back to `2M` exactly as `freq_map.get(vat_frequency, '2M')` does. -/
def periodOf (vatFrequency : String) (t : Ts) : PeriodKey :=
  let y := tsYear t
  let m := tsMonth t
  if vatFrequency = "4M" then .fourM y (fourMonthBucket m)
  else
    let f := if vatFrequency = "M" ∨ vatFrequency = "2M" ∨ vatFrequency = "Q" ∨
        vatFrequency = "6M" ∨ vatFrequency = "Y" then vatFrequency else "2M"
    .std f y (stdBucketStart f m)

/-- Left-pad a string with `'0'` to width `w` (Python `str.zfill`). -/
def zfill (w : ℕ) (s : String) : String :=
  String.mk (List.replicate (w - s.length) '0') ++ s

/-- The `4M` group-by key string `{year}-{bucket:02}` (line 46). -/
def key4MStr (year monthGroup : ℕ) : String :=
  toString year ++ "-" ++ zfill 2 (toString monthGroup)

/-- `YYYY-MM` (`strftime('%Y-%m')`). -/
def fmtYM (y m : ℕ) : String := zfill 4 (toString y) ++ "-" ++ zfill 2 (toString m)

/-- Normalize `(year, 1-based month index + k months)`. -/
def addMonthsYM (y m k : ℕ) : ℕ × ℕ := (y + (m - 1 + k) / 12, (m - 1 + k) % 12 + 1)

/-- The calendar day before the civil date `(y, m, d)`. -/
def predDay (y m d : ℕ) : ℕ × ℕ × ℕ :=
  if 1 < d then (y, m, d - 1)
  else if 1 < m then (y, m - 1, daysInMonth y (m - 1))
  else (y - 1, 12, 31)

/-- Display label for a `4M` period (`format_4m`, lines 78-83): the period runs
from the first of the bucket month to `start + 4 months − 1 day`, and the label
is `"{start YYYY-MM} to {end YYYY-MM}"`. -/
def format4m (year monthGroup : ℕ) : String :=
  let a := addMonthsYM year monthGroup 4
  let e := predDay a.1 a.2 1
  fmtYM year monthGroup ++ " to " ++ fmtYM e.1 e.2.1

/-- Display string of a standard pandas `Period` (`astype(str)`, line 87).
Models the external library's formatting of a period value; it is injective in
(frequency tag, year, bucket start month), which is all the pipeline relies on. -/
def stdPeriodStr (freq : String) (y bm : ℕ) : String :=
  freq ++ ":" ++ toString y ++ "-" ++ zfill 2 (toString bm)

/-- Display label of a period key (lines 77-87: `format_4m` for `4M`,
`astype(str)` otherwise). -/
def periodLabel : PeriodKey → String
  | .fourM y g => format4m y g
  | .std f y bm => stdPeriodStr f y bm

/-! ### Transaction Filter & Aggregator (`process_transactions`) -/

/-- One raw transaction row with the columns the engine reads.  Date-like cells
are `RawCell`s (the `apply(convert_date)` on lines 29-31 normalizes both). -/
structure RawRow where
  invoiceDate : RawCell
  plannedDate : RawCell
  status : String
  gross : ℚ
  tax : ℚ
  net : ℚ
deriving DecidableEq

/-- A transaction after date normalization succeeded on `Invoice Date`. -/
structure Txn where
  invoiceDate : Ts
  plannedDate : Option Ts
  status : String
  gross : ℚ
  tax : ℚ
  net : ℚ
deriving DecidableEq

/-- Run parameters of `process_transactions` (its keyword arguments; the
`transaction_type` tag is accepted and ignored by the logic, as in the source). -/
structure Params where
  vatFrequency : String := "2M"
  vatBasis : String := "accrual"
  startDate : Option Ts := none
  endDate : Option Ts := none
  transactionType : String := "purchases"
deriving DecidableEq

/-- Row-wise date normalization: a row is kept iff its `Invoice Date` resolves
(`dropna(subset=['Invoice Date'])`, line 33). -/
def resolveRow (r : RawRow) : Option Txn :=
  match convert_date r.invoiceDate with
  | none => none
  | some d => some ⟨d, convert_date r.plannedDate, r.status, r.gross, r.tax, r.net⟩

/-- Lines 28-33: normalize the date columns and drop unresolvable rows. -/
def cleanRows (rows : List RawRow) : List Txn := rows.filterMap resolveRow

/-- Lines 37-40: inclusive date-range filter on `Invoice Date`; an absent bound
is unbounded. -/
def rangeFilter (s e : Option Ts) (l : List Txn) : List Txn :=
  let l1 := match s with
    | none => l
    | some sd => l.filter fun t => decide (sd ≤ t.invoiceDate)
  match e with
  | none => l1
  | some ed => l1.filter fun t => decide (t.invoiceDate ≤ ed)

/-- Line 54: `Unpaid/Unreceived` flag. -/
def unpaidFlag (s : String) : Bool := s == "Approved" || s == "Awaiting Payment"

/-- Line 59: accrual-basis bad-debt flag — unpaid/unreceived and invoiced more
than 180 days before `now` (the source reads `datetime.now()` here; the
ambient clock is passed explicitly). -/
def badDebtFlag (now : Ts) (t : Txn) : Bool :=
  unpaidFlag t.status && decide (now - t.invoiceDate > 180 * 86400)

/-- A transaction with its period key and computed flags.  `badDebt = none`
models the `Bad Debt Risk` column being absent (cash basis, lines 56-59). -/
structure FlaggedTxn where
  txn : Txn
  key : PeriodKey
  unpaid : Bool
  badDebt : Option Bool
deriving DecidableEq

/-- Lines 42-59 applied to one ranged row: period key, `Unpaid/Unreceived`,
and (non-cash only) `Bad Debt Risk`. -/
def flagTxn (p : Params) (now : Ts) (t : Txn) : FlaggedTxn :=
  { txn := t
    key := periodOf p.vatFrequency t.invoiceDate
    unpaid := unpaidFlag t.status
    badDebt := if p.vatBasis = "cash" then none else some (badDebtFlag now t) }

/-- The cleaned, ranged, flagged transaction table before basis filtering. -/
def flaggedRows (rows : List RawRow) (p : Params) (now : Ts) : List FlaggedTxn :=
  (rangeFilter p.startDate p.endDate (cleanRows rows)).map (flagTxn p now)

/-- Lines 56-57: under cash basis retain only `Status == "Paid"`. -/
def keptRows (rows : List RawRow) (p : Params) (now : Ts) : List FlaggedTxn :=
  if p.vatBasis = "cash" then
    (flaggedRows rows p now).filter fun t => t.txn.status == "Paid"
  else flaggedRows rows p now

/-- Round half to even, as numpy/pandas `round(0)` does (line 74, line 114,
line 127). -/
def bankersRound (q : ℚ) : ℚ :=
  let f : ℤ := q.floor
  let r : ℚ := q - (f : ℚ)
  if r < 1 / 2 then (f : ℚ)
  else if 1 / 2 < r then ((f + 1 : ℤ) : ℚ)
  else if f % 2 = 0 then (f : ℚ) else ((f + 1 : ℤ) : ℚ)

/-- One row of the per-period summary table: label, rounded sums, count of
unpaid/unreceived rows, and (accrual only, line 67-68) the bad-debt count. -/
structure SummaryRow where
  period : String
  gross : ℚ
  tax : ℚ
  net : ℚ
  unpaid : ℕ
  badDebt : Option ℕ
deriving DecidableEq

/-- Lines 61-74 for one group: sum the amount columns (rounded to whole euros),
count `Unpaid/Unreceived == 'Yes'`, and for accrual count `Bad Debt Risk == 'Yes'`. -/
def aggPeriod (vatBasis : String) (k : PeriodKey) (g : List FlaggedTxn) : SummaryRow :=
  { period := periodLabel k
    gross := bankersRound (g.map (·.txn.gross)).sum
    tax := bankersRound (g.map (·.txn.tax)).sum
    net := bankersRound (g.map (·.txn.net)).sum
    unpaid := (g.filter (·.unpaid)).length
    badDebt := if vatBasis = "accrual" then some ((g.filter (·.badDebt == some true)).length)
      else none }

/-- Lines 61-87: group the retained rows by period key and aggregate. -/
def summaryRows (rows : List RawRow) (p : Params) (now : Ts) : List SummaryRow :=
  let kept := keptRows rows p now
  ((kept.map (·.key)).dedup).map fun k => aggPeriod p.vatBasis k (kept.filter (·.key == k))

/-- The Transaction Filter & Aggregator (`process_transactions`).  Raises
`ValueError` (modeled as `Except.error`) when no row has a resolvable
`Invoice Date` (lines 33-35); otherwise returns the cleaned flagged listing and
the per-period summary. -/
def process_transactions (rows : List RawRow) (p : Params) (now : Ts) :
    Except String (List FlaggedTxn × List SummaryRow) :=
  if (cleanRows rows).isEmpty then
    .error "No valid dates found in the file. Check the date columns."
  else .ok (keptRows rows p now, summaryRows rows p now)

/-! ### Reconciliation Engine (`check_disclosures`) -/

/-- A summary row as consumed by the Reconciliation Engine: its period label
(the join column `VAT Period`) and its computed tax (`Tax (EUR)`). -/
structure RecSummaryRow where
  period : String
  tax : ℚ
deriving DecidableEq

/-- One row of the filed-returns table: period label, filed output tax `T1
(EUR)` and filed input tax `T2 (EUR)`. -/
structure FiledRow where
  period : String
  t1 : ℚ
  t2 : ℚ
deriving DecidableEq

/-- One row of a one-sided reconciliation (lines 109-114 / 122-127): period,
computed tax, the filed amount pulled by the left join (`none` = `NaN` when no
filed row matched), and the rounded liability (`NaN` propagates through the
subtraction and `round`). -/
structure RecRow where
  period : String
  taxCalc : ℚ
  filed : Option ℚ
  liability : Option ℚ
deriving DecidableEq

/-- Pandas left merge on `VAT Period` (lines 109 / 122): each summary row is
paired with every matching filed row, or kept once with `NaN` in the pulled
column when none matches; then the liability column is computed and rounded. -/
def leftJoinFiled (sel : FiledRow → ℚ) (s : List RecSummaryRow) (filed : List FiledRow) :
    List RecRow :=
  s.flatMap fun r =>
    match filed.filter (fun f => f.period == r.period) with
    | [] => [⟨r.period, r.tax, none, none⟩]
    | fs => fs.map fun f => ⟨r.period, r.tax, some (sel f), some (bankersRound (r.tax - sel f))⟩

/-- The two shapes a one-sided reconciliation frame can take: the full frame
built from a non-empty summary, or the degenerate frame of lines 116-117 /
129-130 (only a `VAT Period` column copied from the filed table and a constant
zero liability column). -/
inductive SideFrame where
  | full (rows : List RecRow)
  | degenerate (rows : List (String × ℚ))
deriving DecidableEq

/-- The column selection on lines 133-134: a degenerate frame lacks the
computed-tax and filed columns, so selecting them raises `KeyError`. -/
def selectRecCols : SideFrame → Except String (List RecRow)
  | .full rows => .ok rows
  | .degenerate _ => .error "KeyError: columns not in index"

/-- One row of the combined reconciliation table (lines 133-137). -/
structure MergedRow where
  period : String
  taxCalcInput : Option ℚ
  t2Filed : Option ℚ
  inputLiab : Option ℚ
  taxCalcOutput : Option ℚ
  t1Filed : Option ℚ
  outputLiab : Option ℚ
  estLiab : ℚ
deriving DecidableEq

/-- Pandas outer merge on `VAT Period` (line 133): matched pairs, then
left-only rows with `NaN` on the sales side, then right-only rows with `NaN`
on the purchases side.  `estLiab` is filled afterwards. -/
def outerJoinRec (ps ss : List RecRow) : List MergedRow :=
  (ps.flatMap fun p =>
    match ss.filter (fun q => q.period == p.period) with
    | [] => [⟨p.period, some p.taxCalc, p.filed, p.liability, none, none, none, 0⟩]
    | qs => qs.map fun q =>
        ⟨p.period, some p.taxCalc, p.filed, p.liability, some q.taxCalc, q.filed, q.liability, 0⟩) ++
  ((ss.filter fun q => !ps.any (fun p => p.period == q.period)).map fun q =>
    ⟨q.period, none, none, none, some q.taxCalc, q.filed, q.liability, 0⟩)

/-- Line 137: `Estimated Liability = Output Liability.fillna(0) + Input
Liability.fillna(0)`. -/
def fillEstimated (l : List MergedRow) : List MergedRow :=
  l.map fun r => { r with estLiab := r.outputLiab.getD 0 + r.inputLiab.getD 0 }

/-- The disclosure advisory produced on lines 140-149: total estimated
liability, interest at 0.000219 per day for the whole days from 2023-01-01 to
`now` (the source reads `datetime.now()` on line 142), and the fixed guidance
rows. -/
structure Disclosure where
  totalLiability : ℚ
  interest : ℚ
  details : List String
deriving DecidableEq

/-- The fixed boilerplate guidance rows of the disclosure template (line 147). -/
def disclosureDetails : List String :=
  ["Submit via ROS/MyEnquiries.",
   "Include all VAT for scoped periods (2023-2025).",
   "Benefits: Reduced penalties (e.g., 10% for careless default), no publication/prosecution."]

/-- The Reconciliation Engine (`check_disclosures`).  `none` filed table →
no reconciliation (line 97-98); both summaries empty → no reconciliation
(lines 101-102); otherwise reconcile each side, outer-join, fill
`Estimated Liability`, and produce the disclosure exactly when some row's
`Estimated Liability` is non-zero (line 139).  The empty-summary branches
build degenerate frames whose later column selection raises `KeyError`. -/
def check_disclosures (sp ssales : List RecSummaryRow) (filed? : Option (List FiledRow))
    (now : Ts) : Except String (Option (List MergedRow × Option Disclosure)) :=
  match filed? with
  | none => .ok none
  | some filed =>
    if sp.isEmpty && ssales.isEmpty then .ok none
    else
      let mp : SideFrame :=
        if sp.isEmpty then .degenerate (filed.map fun f => (f.period, 0))
        else .full (leftJoinFiled (·.t2) sp filed)
      let ms : SideFrame :=
        if ssales.isEmpty then .degenerate (filed.map fun f => (f.period, 0))
        else .full (leftJoinFiled (·.t1) ssales filed)
      match selectRecCols mp with
      | .error e => .error e
      | .ok prows =>
        match selectRecCols ms with
        | .error e => .error e
        | .ok srows =>
          let merged := fillEstimated (outerJoinRec prows srows)
          if merged.any fun r => decide (r.estLiab ≠ 0) then
            let total := (merged.map (·.estLiab)).sum
            let daysLate : ℤ := ((now - unixSec 2023 1 1) / 86400).floor
            let interest := total * (219 / 1000000) * (daysLate : ℚ)
            .ok (some (merged, some ⟨total, interest, disclosureDetails⟩))
          else .ok (some (merged, none))

/-! ### Bridge lemmas: `Rat.floor` and calendar evaluation -/

theorem ratFloor_eq_intFloor (q : ℚ) : q.floor = ⌊q⌋ := by
  rw [Rat.floor_def', ← Rat.floor_def]

theorem tsDayNumber_int_mul (k : ℤ) : tsDayNumber ((k : ℚ) * 86400) = k := by
  unfold tsDayNumber
  rw [ratFloor_eq_intFloor, mul_div_assoc]
  norm_num

theorem tsCivil_int_mul (k : ℤ) :
    tsCivil ((k : ℚ) * 86400) = civilFromDays ((k + (epoch1970 : ℤ)).toNat) := by
  unfold tsCivil
  rw [tsDayNumber_int_mul]

theorem unixSec_eq (y m d : ℕ) : unixSec y m d = ((unixDays y m d : ℤ) : ℚ) * 86400 := rfl

theorem tsCivil_unixSec (y m d : ℕ) :
    tsCivil (unixSec y m d) = civilFromDays (daysFromCivil y m d) := by
  rw [unixSec_eq, tsCivil_int_mul]
  unfold unixDays
  simp

theorem serialEpoch_add_days (n : ℤ) :
    serialEpochSec + (n : ℚ) * 86400 = ((unixDays 1899 12 30 + n : ℤ) : ℚ) * 86400 := by
  rw [serialEpochSec, unixSec_eq]
  push_cast
  ring

theorem bankersRound_intCast (k : ℤ) : bankersRound (k : ℚ) = (k : ℚ) := by
  unfold bankersRound
  rw [ratFloor_eq_intFloor, Int.floor_intCast]
  norm_num

theorem bankersRound_zero : bankersRound 0 = 0 := by
  have h := bankersRound_intCast 0
  norm_num at h
  exact h

/-! ### C5: spreadsheet day-serial dates -/

/-- C5 (amended): for every raw cell that fails date-text parsing but parses as
a number `n` with `0 < n < 100000`, the Date Normalizer returns the timestamp
1899-12-30 plus `n` days; the resulting timestamp for serial 60 falls on the
real calendar date 1900-02-28 (not the fictitious legacy date 1900-02-29),
while serials from 61 on line up with the legacy encoding (61 ↦ 1900-03-01). -/
theorem C5_serial_dates :
    (∀ (c : RawCell) (n : ℚ), c.asDate = none → c.asNum = some n → 0 < n → n < 100000 →
      convert_date c = some (serialEpochSec + n * 86400)) ∧
    tsCivil (serialEpochSec + 60 * 86400) = (1900, 2, 28) ∧
    tsCivil (serialEpochSec + 61 * 86400) = (1900, 3, 1) := by
  refine ⟨?_, ?_, ?_⟩
  · rintro ⟨cd, cn⟩ n hd hn h0 h1
    simp only at hd hn
    subst hd; subst hn
    simp [convert_date, h0, h1]
  · rw [show (60 : ℚ) = ((60 : ℤ) : ℚ) by norm_num, serialEpoch_add_days, tsCivil_int_mul]
    decide
  · rw [show (61 : ℚ) = ((61 : ℤ) : ℚ) by norm_num, serialEpoch_add_days, tsCivil_int_mul]
    decide

/-- C5 witness: serial 3 resolves to 1899-12-30 plus 3 days. -/
theorem C5_serial_dates_witness :
    convert_date ⟨none, some 3⟩ = some (serialEpochSec + 3 * 86400) :=
  C5_serial_dates.1 ⟨none, some 3⟩ 3 rfl rfl (by norm_num) (by norm_num)

/-- C5 counterexample: the normalizer maps serial 60 to 1899-12-30 + 60 days,
whose calendar date is 1900-02-28, not 1900-02-29 as the claim states. -/
theorem C5_counterexample :
    convert_date ⟨none, some 60⟩ = some (serialEpochSec + 60 * 86400) ∧
    tsCivil (serialEpochSec + 60 * 86400) = (1900, 2, 28) ∧
    ((1900, 2, 28) : ℕ × ℕ × ℕ) ≠ (1900, 2, 29) := by
  refine ⟨?_, ?_, by decide⟩
  · simp [convert_date]
    norm_num
  · rw [show (60 : ℚ) = ((60 : ℤ) : ℚ) by norm_num, serialEpoch_add_days, tsCivil_int_mul]
    decide

/-! ### C6: numeric epoch branches -/

/-- C6 (amended): for a raw cell that fails date-text parsing but parses as a
number `n`, the normalizer returns the epoch-seconds timestamp when
`1e9 < n < 1e15` and `n` seconds also fits the int64-nanosecond `Timestamp`
range (`n * 1e9 ≤ 2^63 − 1`), the epoch-nanoseconds timestamp when `n > 1e15`
and `n ≤ 2^63 − 1`, and the invalid marker when `n` is non-positive, lies in
the gap `[1e5, 1e9]`, or exceeds the `Timestamp` range in the selected unit
(the `OutOfBoundsDatetime` is caught by the bare `except` and returned as
`NaT`). -/
theorem C6_numeric_branches :
    ∀ (c : RawCell) (n : ℚ), c.asDate = none → c.asNum = some n →
      ((1000000000 < n ∧ n * 1000000000 ≤ 9223372036854775807 ∧
          n < 1000000000000000) → convert_date c = some n) ∧
      ((1000000000 < n ∧ n < 1000000000000000 ∧
          9223372036854775807 < n * 1000000000) → convert_date c = none) ∧
      ((1000000000000000 < n ∧ n ≤ 9223372036854775807) →
        convert_date c = some (n / 1000000000)) ∧
      ((9223372036854775807 : ℚ) < n → convert_date c = none) ∧
      ((n ≤ 0 ∨ (100000 ≤ n ∧ n ≤ 1000000000)) → convert_date c = none) := by
  rintro ⟨cd, cn⟩ n hd hn
  simp only at hd hn
  subst hd; subst hn
  simp only [convert_date]
  refine ⟨fun h => ?_, fun h => ?_, fun h => ?_, fun h => ?_, fun h => ?_⟩
  · obtain ⟨h1, h2, h3⟩ := h
    have hlow : (-9223372036854775807 : ℚ) ≤ n * 1000000000 := by
      have hm := mul_lt_mul_of_pos_right h1 (show (0 : ℚ) < 1000000000 by norm_num)
      norm_num at hm
      linarith
    rw [if_neg (by rintro ⟨-, hx⟩; linarith), if_pos ⟨h1, h3⟩, if_pos ⟨hlow, h2⟩]
  · obtain ⟨h1, h2, h3⟩ := h
    rw [if_neg (by rintro ⟨-, hx⟩; linarith), if_pos ⟨h1, h2⟩,
      if_neg (by rintro ⟨-, hb⟩; linarith)]
  · obtain ⟨h1, h2⟩ := h
    have hlow : (-9223372036854775807 : ℚ) ≤ n := by linarith
    rw [if_neg (by rintro ⟨-, hx⟩; linarith), if_neg (by rintro ⟨-, hx⟩; linarith),
      if_pos h1, if_pos ⟨hlow, h2⟩]
  · rw [if_neg (by rintro ⟨-, hx⟩; linarith), if_neg (by rintro ⟨-, hx⟩; linarith),
      if_pos (by linarith), if_neg (by rintro ⟨-, hb⟩; linarith)]
  · rcases h with h | ⟨h1, h2⟩
    · rw [if_neg (by rintro ⟨h0, -⟩; linarith), if_neg (by rintro ⟨h0, -⟩; linarith),
        if_neg (by intro h0; linarith)]
    · rw [if_neg (by rintro ⟨-, hb⟩; linarith), if_neg (by rintro ⟨ha, -⟩; linarith),
        if_neg (by intro h0; linarith)]

/-- C6 witness: 2e9 is read as epoch seconds and 2e15 as epoch nanoseconds
(both in range); 2e10 seconds and 1e19 nanoseconds overflow the `Timestamp`
range and come back invalid, as does 5e5 in the gap. -/
theorem C6_numeric_branches_witness :
    convert_date ⟨none, some 2000000000⟩ = some 2000000000 ∧
    convert_date ⟨none, some 20000000000⟩ = none ∧
    convert_date ⟨none, some 2000000000000000⟩ = some (2000000000000000 / 1000000000) ∧
    convert_date ⟨none, some 10000000000000000000⟩ = none ∧
    convert_date ⟨none, some 500000⟩ = none :=
  ⟨(C6_numeric_branches ⟨none, some 2000000000⟩ 2000000000 rfl rfl).1 (by norm_num),
   (C6_numeric_branches ⟨none, some 20000000000⟩ 20000000000 rfl rfl).2.1 (by norm_num),
   (C6_numeric_branches ⟨none, some 2000000000000000⟩ 2000000000000000 rfl rfl).2.2.1
     (by norm_num),
   (C6_numeric_branches ⟨none, some 10000000000000000000⟩ 10000000000000000000
     rfl rfl).2.2.2.1 (by norm_num),
   (C6_numeric_branches ⟨none, some 500000⟩ 500000 rfl rfl).2.2.2.2 (by norm_num)⟩

/-- C6 counterexample: 2e10 lies inside the claimed epoch-seconds range
`(1e9, 1e15)`, but 2e10 seconds exceeds the int64-nanosecond `Timestamp`
range, so `pd.to_datetime(n, unit='s')` raises `OutOfBoundsDatetime` and the
bare `except` returns the invalid marker — not an epoch-seconds timestamp as
the claim states. -/
theorem C6_counterexample :
    (1000000000 : ℚ) < 20000000000 ∧ (20000000000 : ℚ) < 1000000000000000 ∧
    convert_date ⟨none, some 20000000000⟩ = none := by
  refine ⟨by norm_num, by norm_num, ?_⟩
  simp only [convert_date]
  norm_num

/-! ### C7: NoValidDatesError -/

/-- C7: when no input row has a resolvable `Invoice Date` (in particular when
every date cell is non-date, non-numeric text), the Filter & Aggregator fails
with the no-valid-dates error and produces no summary output. -/
theorem C7_no_valid_dates (rows : List RawRow) (p : Params) (now : Ts)
    (h : ∀ r ∈ rows, convert_date r.invoiceDate = none) :
    process_transactions rows p now =
      .error "No valid dates found in the file. Check the date columns." := by
  have hc : cleanRows rows = [] := by
    rw [cleanRows, List.filterMap_eq_nil_iff]
    intro r hr
    rw [resolveRow, h r hr]
  rw [process_transactions, hc]
  rfl

/-- C7 witness: a one-row table whose `Invoice Date` is unparseable text. -/
theorem C7_no_valid_dates_witness :
    process_transactions [⟨⟨none, none⟩, ⟨none, none⟩, "Paid", 0, 0, 0⟩]
      ⟨"2M", "accrual", none, none, "purchases"⟩ 0 =
      .error "No valid dates found in the file. Check the date columns." :=
  C7_no_valid_dates _ _ _ (by rintro r hr; simp only [List.mem_singleton] at hr; subst hr; rfl)

/-! ### Shared evaluation helpers -/

theorem tsCivil_zero : tsCivil 0 = (1970, 1, 1) := by
  rw [show (0 : ℚ) = ((0 : ℤ) : ℚ) * 86400 by norm_num, tsCivil_int_mul]
  decide

theorem periodOf_2M_zero : periodOf "2M" 0 = .std "2M" 1970 1 := by
  simp [periodOf, tsYear, tsMonth, tsCivil_zero, stdBucketStart]

/-! ### C10: all rows range-filtered away -/

/-- C10: when the input is non-empty and every `Invoice Date` resolves, but the
inclusive date-range filter removes every row, the aggregator does not raise
the no-valid-dates error (that check runs before range filtering): it returns
an empty cleaned table and an empty summary. -/
theorem C10_range_filtered_empty (rows : List RawRow) (p : Params) (now : Ts)
    (hne : rows ≠ [])
    (hall : ∀ r ∈ rows, convert_date r.invoiceDate ≠ none)
    (hr : rangeFilter p.startDate p.endDate (cleanRows rows) = []) :
    process_transactions rows p now = .ok ([], []) := by
  have hc : (cleanRows rows).isEmpty = false := by
    rcases rows with _ | ⟨r, rs⟩
    · exact absurd rfl hne
    · have h1 := hall r (by simp)
      rcases ho : convert_date r.invoiceDate with _ | d
      · exact absurd ho h1
      · simp [cleanRows, resolveRow, ho, List.filterMap_cons]
  have hf : flaggedRows rows p now = [] := by
    rw [flaggedRows, hr]
    rfl
  have hk : keptRows rows p now = [] := by
    rw [keptRows, hf]
    split <;> rfl
  rw [process_transactions, hc]
  simp only [Bool.false_eq_true, if_false]
  rw [summaryRows, hk]
  rfl

/-- C10 witness: one row dated at the epoch, start bound one day later. -/
theorem C10_range_filtered_empty_witness :
    process_transactions [⟨⟨some 0, none⟩, ⟨none, none⟩, "Paid", 0, 0, 0⟩]
      ⟨"2M", "accrual", some 86400, none, "purchases"⟩ 0 = .ok ([], []) := by
  refine C10_range_filtered_empty _ _ _ (by simp) ?_ ?_
  · rintro r hr
    simp only [List.mem_singleton] at hr
    subst hr
    simp [convert_date]
  · have hc : cleanRows [⟨⟨some 0, none⟩, ⟨none, none⟩, "Paid", 0, 0, 0⟩] =
        [⟨0, none, "Paid", 0, 0, 0⟩] := rfl
    rw [hc]
    norm_num [rangeFilter, List.filter_cons]

/-! ### C8: cash basis -/

/-- C8: under cash basis the aggregator retains exactly the `Status == "Paid"`
rows: every retained row is `Paid`, each period's group size equals the count
of `Paid` rows of that period in the cleaned ranged table, and every summary
row's bad-debt column is absent (`none`). -/
theorem C8_cash_basis (rows : List RawRow) (p : Params) (now : Ts)
    (hb : p.vatBasis = "cash") (kept : List FlaggedTxn) (summary : List SummaryRow)
    (hok : process_transactions rows p now = .ok (kept, summary)) :
    (∀ t ∈ kept, t.txn.status = "Paid") ∧
    (∀ k : PeriodKey, (kept.filter (·.key == k)).length =
      ((flaggedRows rows p now).filter
        (fun t => t.key == k && t.txn.status == "Paid")).length) ∧
    (∀ s ∈ summary, s.badDebt = none) := by
  rw [process_transactions] at hok
  split at hok
  · exact absurd hok (by simp)
  · obtain ⟨hk, hs⟩ : keptRows rows p now = kept ∧ summaryRows rows p now = summary := by
      simpa using hok
    have hkept : keptRows rows p now =
        (flaggedRows rows p now).filter (fun t => t.txn.status == "Paid") := by
      rw [keptRows, if_pos hb]
    refine ⟨?_, ?_, ?_⟩
    · intro t ht
      rw [← hk, hkept, List.mem_filter] at ht
      exact eq_of_beq ht.2
    · intro k
      rw [← hk, hkept, List.filter_filter]
    · intro s hs2
      rw [← hs, summaryRows] at hs2
      simp only [List.mem_map] at hs2
      obtain ⟨k, -, rfl⟩ := hs2
      simp [aggPeriod, hb]

/-- C8 witness: a `Paid` row and an `Approved` row at the epoch under cash
basis; the `Approved` row is dropped and the summary has no bad-debt column. -/
theorem C8_cash_basis_witness :
    (∀ t ∈ [(⟨⟨0, none, "Paid", 0, 0, 0⟩, .std "2M" 1970 1, false, none⟩ : FlaggedTxn)],
      t.txn.status = "Paid") ∧
    (∀ k : PeriodKey,
      (([(⟨⟨0, none, "Paid", 0, 0, 0⟩, .std "2M" 1970 1, false, none⟩ : FlaggedTxn)].filter
        (·.key == k)).length) =
      ((flaggedRows
          [⟨⟨some 0, none⟩, ⟨none, none⟩, "Paid", 0, 0, 0⟩,
           ⟨⟨some 0, none⟩, ⟨none, none⟩, "Approved", 0, 0, 0⟩]
          ⟨"2M", "cash", none, none, "purchases"⟩ 0).filter
        (fun t => t.key == k && t.txn.status == "Paid")).length) ∧
    (∀ s ∈ [(⟨"2M:1970-01", 0, 0, 0, 0, none⟩ : SummaryRow)], s.badDebt = none) := by
  refine C8_cash_basis _ _ _ rfl _ _ ?_
  have hclean : cleanRows
      [⟨⟨some 0, none⟩, ⟨none, none⟩, "Paid", 0, 0, 0⟩,
       ⟨⟨some 0, none⟩, ⟨none, none⟩, "Approved", 0, 0, 0⟩] =
      [⟨0, none, "Paid", 0, 0, 0⟩, ⟨0, none, "Approved", 0, 0, 0⟩] := rfl
  rw [process_transactions, hclean]
  simp only [List.isEmpty_cons, Bool.false_eq_true, if_false]
  have hflag : flaggedRows
      [⟨⟨some 0, none⟩, ⟨none, none⟩, "Paid", 0, 0, 0⟩,
       ⟨⟨some 0, none⟩, ⟨none, none⟩, "Approved", 0, 0, 0⟩]
      ⟨"2M", "cash", none, none, "purchases"⟩ 0 =
      [⟨⟨0, none, "Paid", 0, 0, 0⟩, .std "2M" 1970 1, false, none⟩,
       ⟨⟨0, none, "Approved", 0, 0, 0⟩, .std "2M" 1970 1, true, none⟩] := by
    rw [flaggedRows, hclean]
    simp [rangeFilter, flagTxn, periodOf_2M_zero, unpaidFlag]
  have hkept : keptRows
      [⟨⟨some 0, none⟩, ⟨none, none⟩, "Paid", 0, 0, 0⟩,
       ⟨⟨some 0, none⟩, ⟨none, none⟩, "Approved", 0, 0, 0⟩]
      ⟨"2M", "cash", none, none, "purchases"⟩ 0 =
      [⟨⟨0, none, "Paid", 0, 0, 0⟩, .std "2M" 1970 1, false, none⟩] := by
    rw [keptRows, if_pos rfl, hflag]
    simp [List.filter_cons]
  rw [summaryRows, hkept]
  simp only [List.map_cons, List.map_nil, List.dedup_cons_of_not_mem, List.not_mem_nil,
    not_false_iff, List.dedup_nil]
  simp only [aggPeriod, List.filter_cons]
  simp [bankersRound_zero, periodLabel, stdPeriodStr]
  decide

/-! ### C4: determinism and the ambient clock -/

/-- C4 (amended): the summary is a deterministic function of the input table,
the run parameters, and the aging timestamp `now`: two runs with equal `now`
(or under cash basis, with any `now`s, since cash skips bad-debt aging) give
identical output.  The source reads `now` from the ambient wall clock inside
aggregation rather than taking it as a parameter, so output is not a function
of table and parameters alone (see the counterexample). -/
theorem C4_deterministic_given_now (rows : List RawRow) (p : Params) (now1 now2 : Ts)
    (h : p.vatBasis = "cash" ∨ now1 = now2) :
    process_transactions rows p now1 = process_transactions rows p now2 := by
  rcases h with hb | rfl
  · have hfl : flagTxn p now1 = flagTxn p now2 := by
      funext t
      simp [flagTxn, hb]
    simp only [process_transactions, summaryRows, keptRows, flaggedRows, hfl]
  · rfl

/-- C4 witness: identical cash-basis runs at two different clock readings. -/
theorem C4_deterministic_given_now_witness :
    process_transactions [] ⟨"2M", "cash", none, none, "purchases"⟩ 0 =
    process_transactions [] ⟨"2M", "cash", none, none, "purchases"⟩ 999 :=
  C4_deterministic_given_now _ _ _ _ (Or.inl rfl)

/-- C4 counterexample: same table, same parameters, two clock readings 200 days
apart — the bad-debt flag and the summary's bad-debt count differ, so the
output is not a function of the input table and parameters alone. -/
theorem C4_counterexample :
    process_transactions [⟨⟨some 0, none⟩, ⟨none, none⟩, "Approved", 0, 0, 0⟩]
      ⟨"2M", "accrual", none, none, "purchases"⟩ 0 ≠
    process_transactions [⟨⟨some 0, none⟩, ⟨none, none⟩, "Approved", 0, 0, 0⟩]
      ⟨"2M", "accrual", none, none, "purchases"⟩ 17280000 := by
  have hclean : cleanRows [⟨⟨some 0, none⟩, ⟨none, none⟩, "Approved", 0, 0, 0⟩] =
      [⟨0, none, "Approved", 0, 0, 0⟩] := rfl
  have hbad1 : badDebtFlag 0 ⟨0, none, "Approved", 0, 0, 0⟩ = false := by
    rw [badDebtFlag]
    norm_num [unpaidFlag]
  have hbad2 : badDebtFlag 17280000 ⟨0, none, "Approved", 0, 0, 0⟩ = true := by
    rw [badDebtFlag]
    norm_num [unpaidFlag]
  intro h
  rw [process_transactions, process_transactions, hclean] at h
  simp only [List.isEmpty_cons, Bool.false_eq_true, if_false, Except.ok.injEq,
    Prod.mk.injEq] at h
  have h1 := h.1
  rw [keptRows, keptRows] at h1
  simp only [if_neg (by decide : ¬("accrual" : String) = "cash")] at h1
  rw [flaggedRows, flaggedRows, hclean] at h1
  simp only [rangeFilter, List.map_cons, List.map_nil, flagTxn, hbad1, hbad2] at h1
  simp at h1

/-! ### Reconciliation helpers -/

theorem leftJoinFiled_exists_mem (sel : FiledRow → ℚ) (sps : List RecSummaryRow)
    (filed : List FiledRow) (s : RecSummaryRow) (hs : s ∈ sps) :
    ∃ r ∈ leftJoinFiled sel sps filed, r.period = s.period := by
  rcases hfil : filed.filter (fun f => f.period == s.period) with _ | ⟨f, fs⟩
  · refine ⟨⟨s.period, s.tax, none, none⟩, ?_, rfl⟩
    rw [leftJoinFiled]
    refine List.mem_flatMap.mpr ⟨s, hs, ?_⟩
    rw [hfil]
    exact List.mem_singleton.mpr rfl
  · refine ⟨⟨s.period, s.tax, some (sel f), some (bankersRound (s.tax - sel f))⟩, ?_, rfl⟩
    rw [leftJoinFiled]
    refine List.mem_flatMap.mpr ⟨s, hs, ?_⟩
    rw [hfil]
    exact List.mem_map.mpr ⟨f, List.mem_cons_self f fs, rfl⟩

theorem outerJoinRec_left_mem (ps qs : List RecRow) (p : RecRow) (hp : p ∈ ps) :
    ∃ r ∈ outerJoinRec ps qs, r.period = p.period := by
  rcases hfil : qs.filter (fun q => q.period == p.period) with _ | ⟨q, tail⟩
  · refine ⟨⟨p.period, some p.taxCalc, p.filed, p.liability, none, none, none, 0⟩, ?_, rfl⟩
    rw [outerJoinRec]
    refine List.mem_append_left _ (List.mem_flatMap.mpr ⟨p, hp, ?_⟩)
    rw [hfil]
    exact List.mem_singleton.mpr rfl
  · refine ⟨⟨p.period, some p.taxCalc, p.filed, p.liability, some q.taxCalc, q.filed,
      q.liability, 0⟩, ?_, rfl⟩
    rw [outerJoinRec]
    refine List.mem_append_left _ (List.mem_flatMap.mpr ⟨p, hp, ?_⟩)
    rw [hfil]
    exact List.mem_map.mpr ⟨q, List.mem_cons_self q tail, rfl⟩

theorem outerJoinRec_right_mem (ps qs : List RecRow) (q : RecRow) (hq : q ∈ qs) :
    ∃ r ∈ outerJoinRec ps qs, r.period = q.period := by
  by_cases hany : ps.any (fun p => p.period == q.period) = true
  · obtain ⟨p, hp, hpq⟩ := List.any_eq_true.mp hany
    have hpq2 : p.period = q.period := eq_of_beq hpq
    have hqf : q ∈ qs.filter (fun x => x.period == p.period) := by
      rw [List.mem_filter]
      exact ⟨hq, by rw [hpq2]; exact beq_self_eq_true _⟩
    refine ⟨⟨p.period, some p.taxCalc, p.filed, p.liability, some q.taxCalc, q.filed,
      q.liability, 0⟩, ?_, hpq2⟩
    rcases hfil : qs.filter (fun x => x.period == p.period) with _ | ⟨q0, tail⟩
    · rw [hfil] at hqf
      exact absurd hqf (List.not_mem_nil q)
    · rw [outerJoinRec]
      refine List.mem_append_left _ (List.mem_flatMap.mpr ⟨p, hp, ?_⟩)
      rw [hfil]
      rw [hfil] at hqf
      exact List.mem_map.mpr ⟨q, hqf, rfl⟩
  · rw [Bool.not_eq_true] at hany
    refine ⟨⟨q.period, none, none, none, some q.taxCalc, q.filed, q.liability, 0⟩, ?_, rfl⟩
    rw [outerJoinRec]
    refine List.mem_append_right _ (List.mem_map.mpr ⟨q, ?_, rfl⟩)
    rw [List.mem_filter]
    exact ⟨hq, by rw [hany]; rfl⟩

theorem fillEstimated_period_mem (l : List MergedRow) (r : MergedRow) (hr : r ∈ l) :
    ∃ r2 ∈ fillEstimated l, r2.period = r.period :=
  ⟨_, List.mem_map.mpr ⟨r, hr, rfl⟩, rfl⟩

theorem fillEstimated_est (l : List MergedRow) (r : MergedRow) (hr : r ∈ fillEstimated l) :
    r.estLiab = r.outputLiab.getD 0 + r.inputLiab.getD 0 := by
  obtain ⟨r0, -, rfl⟩ := List.mem_map.mp hr
  rfl

/-- Reduction of `check_disclosures` on the non-degenerate path (both input
summaries non-empty and a filed table supplied). -/
theorem check_disclosures_ok (sp ssales : List RecSummaryRow) (filed : List FiledRow)
    (now : Ts) (hp : sp ≠ []) (hs : ssales ≠ []) :
    check_disclosures sp ssales (some filed) now =
      (if (fillEstimated (outerJoinRec (leftJoinFiled (·.t2) sp filed)
            (leftJoinFiled (·.t1) ssales filed))).any (fun r => decide (r.estLiab ≠ 0)) then
        .ok (some (fillEstimated (outerJoinRec (leftJoinFiled (·.t2) sp filed)
            (leftJoinFiled (·.t1) ssales filed)),
          some ⟨((fillEstimated (outerJoinRec (leftJoinFiled (·.t2) sp filed)
              (leftJoinFiled (·.t1) ssales filed))).map (·.estLiab)).sum,
            ((fillEstimated (outerJoinRec (leftJoinFiled (·.t2) sp filed)
              (leftJoinFiled (·.t1) ssales filed))).map (·.estLiab)).sum * (219 / 1000000) *
              ((((now - unixSec 2023 1 1) / 86400).floor : ℤ) : ℚ), disclosureDetails⟩))
      else .ok (some (fillEstimated (outerJoinRec (leftJoinFiled (·.t2) sp filed)
          (leftJoinFiled (·.t1) ssales filed)), none))) := by
  have hspe : sp.isEmpty = false := by
    cases sp
    · exact absurd rfl hp
    · rfl
  have hsse : ssales.isEmpty = false := by
    cases ssales
    · exact absurd rfl hs
    · rfl
  rw [check_disclosures, hspe, hsse]
  rfl

/-! ### C1: the disclosure gate -/

/-- C1 (amended): when the Reconciliation Engine returns a reconciliation
table, the disclosure record set (with the total-liability and interest
figures) is emitted if and only if at least one period's Estimated Liability
is non-zero — the gate tests each period, not the sum, so cancelling
liabilities can produce a disclosure whose total is zero. -/
theorem C1_disclosure_gate (sp ssales : List RecSummaryRow) (filed : List FiledRow)
    (now : Ts) (rows : List MergedRow) (d : Option Disclosure)
    (hok : check_disclosures sp ssales (some filed) now = .ok (some (rows, d))) :
    d.isSome ↔ ∃ r ∈ rows, r.estLiab ≠ 0 := by
  by_cases hp : sp = []
  · by_cases hs : ssales = []
    · subst hp; subst hs
      rw [check_disclosures] at hok
      simp at hok
    · subst hp
      have hsse : ssales.isEmpty = false := by
        cases ssales
        · exact absurd rfl hs
        · rfl
      rw [check_disclosures, hsse] at hok
      simp [selectRecCols] at hok
  · by_cases hs : ssales = []
    · subst hs
      have hspe : sp.isEmpty = false := by
        cases sp
        · exact absurd rfl hp
        · rfl
      rw [check_disclosures, hspe] at hok
      simp [selectRecCols] at hok
    · rw [check_disclosures_ok sp ssales filed now hp hs] at hok
      split at hok
      next hany =>
        obtain ⟨hrows, hd⟩ : _ ∧ _ := by simpa using hok
        subst hrows
        rw [← hd]
        simp only [Option.isSome_some, true_iff]
        simpa using hany
      next hany =>
        obtain ⟨hrows, hd⟩ : _ ∧ _ := by simpa using hok
        subst hrows
        rw [← hd]
        simp only [Option.isSome_none, false_iff]
        simpa using hany

/-- C1 witness: a single matched period with a non-zero liability yields a
disclosure. -/
theorem C1_disclosure_gate_witness :
    (some (⟨5, 0, disclosureDetails⟩ : Disclosure)).isSome ↔
      ∃ r ∈ [(⟨"A", some 5, some 2, some 3, some 3, some 1, some 2, 5⟩ : MergedRow)],
        r.estLiab ≠ 0 := by
  refine C1_disclosure_gate [⟨"A", 5⟩] [⟨"A", 3⟩] [⟨"A", 1, 2⟩] (unixSec 2023 1 1) _ _ ?_
  rw [check_disclosures_ok _ _ _ _ (by simp) (by simp)]
  have hb3 : bankersRound (5 - 2 : ℚ) = 3 := by
    rw [show (5 - 2 : ℚ) = ((3 : ℤ) : ℚ) by norm_num, bankersRound_intCast]
    norm_num
  have hb2 : bankersRound (3 - 1 : ℚ) = 2 := by
    rw [show (3 - 1 : ℚ) = ((2 : ℤ) : ℚ) by norm_num, bankersRound_intCast]
    norm_num
  have hjp : leftJoinFiled (·.t2) [⟨"A", 5⟩] [⟨"A", 1, 2⟩] = [⟨"A", 5, some 2, some 3⟩] := by
    rw [leftJoinFiled]
    simp [List.filter_cons, hb3]
  have hjs : leftJoinFiled (·.t1) [⟨"A", 3⟩] [⟨"A", 1, 2⟩] = [⟨"A", 3, some 1, some 2⟩] := by
    rw [leftJoinFiled]
    simp [List.filter_cons, hb2]
  rw [hjp, hjs]
  have hout : outerJoinRec [⟨"A", 5, some 2, some 3⟩] [⟨"A", 3, some 1, some 2⟩] =
      [⟨"A", some 5, some 2, some 3, some 3, some 1, some 2, 0⟩] := by
    rw [outerJoinRec]
    simp [List.filter_cons]
  rw [hout]
  have hfill : fillEstimated [⟨"A", some 5, some 2, some 3, some 3, some 1, some 2, 0⟩] =
      [⟨"A", some 5, some 2, some 3, some 3, some 1, some 2, 5⟩] := by
    rw [fillEstimated]
    simp [Option.getD]
    norm_num
  rw [hfill]
  have hfloor : ((unixSec 2023 1 1 - unixSec 2023 1 1 : ℚ) / 86400).floor = (0 : ℤ) := by
    rw [sub_self, zero_div, ratFloor_eq_intFloor, Int.floor_zero]
  rw [hfloor]
  norm_num [List.any_cons]

/-- C1 counterexample: two purchase periods with liabilities +100 and −100 sum
to zero, yet a disclosure (with total-liability figure 0) is emitted, because
the gate is `(EstimatedLiability != 0).any()`, not a test of the sum. -/
theorem C1_counterexample :
    check_disclosures [⟨"A", 100⟩, ⟨"B", -100⟩] [⟨"A", 0⟩]
      (some [⟨"A", 0, 0⟩, ⟨"B", 0, 0⟩]) (unixSec 2023 1 1) =
    .ok (some ([⟨"A", some 100, some 0, some 100, some 0, some 0, some 0, 100⟩,
                ⟨"B", some (-100), some 0, some (-100), none, none, none, -100⟩],
               some ⟨0, 0, disclosureDetails⟩)) := by
  rw [check_disclosures_ok _ _ _ _ (by simp) (by simp)]
  have hb100 : bankersRound (100 : ℚ) = 100 := by
    rw [show (100 : ℚ) = ((100 : ℤ) : ℚ) by norm_num, bankersRound_intCast]
  have hbm100 : bankersRound (-100 : ℚ) = -100 := by
    rw [show (-100 : ℚ) = ((-100 : ℤ) : ℚ) by norm_num, bankersRound_intCast]
  have hjp : leftJoinFiled (·.t2) [⟨"A", 100⟩, ⟨"B", -100⟩] [⟨"A", 0, 0⟩, ⟨"B", 0, 0⟩] =
      [⟨"A", 100, some 0, some 100⟩, ⟨"B", -100, some 0, some (-100)⟩] := by
    rw [leftJoinFiled]
    simp [List.filter_cons, hb100, hbm100]
  have hjs : leftJoinFiled (·.t1) [⟨"A", 0⟩] [⟨"A", 0, 0⟩, ⟨"B", 0, 0⟩] =
      [⟨"A", 0, some 0, some 0⟩] := by
    rw [leftJoinFiled]
    simp [List.filter_cons, bankersRound_zero]
  rw [hjp, hjs]
  have hout : outerJoinRec [⟨"A", 100, some 0, some 100⟩, ⟨"B", -100, some 0, some (-100)⟩]
      [⟨"A", 0, some 0, some 0⟩] =
      [⟨"A", some 100, some 0, some 100, some 0, some 0, some 0, 0⟩,
       ⟨"B", some (-100), some 0, some (-100), none, none, none, 0⟩] := by
    rw [outerJoinRec]
    simp [List.filter_cons]
  rw [hout]
  have hfill : fillEstimated
      [⟨"A", some 100, some 0, some 100, some 0, some 0, some 0, 0⟩,
       ⟨"B", some (-100), some 0, some (-100), none, none, none, 0⟩] =
      [⟨"A", some 100, some 0, some 100, some 0, some 0, some 0, 100⟩,
       ⟨"B", some (-100), some 0, some (-100), none, none, none, -100⟩] := by
    rw [fillEstimated]
    simp [Option.getD]
  rw [hfill]
  have hfloor : ((unixSec 2023 1 1 - unixSec 2023 1 1 : ℚ) / 86400).floor = (0 : ℤ) := by
    rw [sub_self, zero_div, ratFloor_eq_intFloor, Int.floor_zero]
  rw [hfloor]
  norm_num [List.any_cons]

/-! ### C2: missing filed row -/

/-- C2: evaluation at the failing input.  The computed period `2023Q1` has no
row in the filed table: the period still appears in the output, but its pulled
filed amounts are missing (`none`, i.e. `NaN`), both side liabilities are
`NaN`, and its Estimated Liability is 0 — not the full computed tax (140), so
no disclosure is triggered. -/
theorem C2_missing_filed_row :
    check_disclosures [⟨"2023Q1", 100⟩] [⟨"2023Q1", 40⟩] (some [⟨"2024Q4", 0, 0⟩]) 0 =
      .ok (some ([⟨"2023Q1", some 100, none, none, some 40, none, none, 0⟩], none)) := by
  rw [check_disclosures_ok _ _ _ _ (by simp) (by simp)]
  have hjp : leftJoinFiled (·.t2) [⟨"2023Q1", 100⟩] [⟨"2024Q4", 0, 0⟩] =
      [⟨"2023Q1", 100, none, none⟩] := by
    rw [leftJoinFiled]
    simp [List.filter_cons]
  have hjs : leftJoinFiled (·.t1) [⟨"2023Q1", 40⟩] [⟨"2024Q4", 0, 0⟩] =
      [⟨"2023Q1", 40, none, none⟩] := by
    rw [leftJoinFiled]
    simp [List.filter_cons]
  rw [hjp, hjs]
  have hout : outerJoinRec [⟨"2023Q1", 100, none, none⟩] [⟨"2023Q1", 40, none, none⟩] =
      [⟨"2023Q1", some 100, none, none, some 40, none, none, 0⟩] := by
    rw [outerJoinRec]
    simp [List.filter_cons]
  rw [hout]
  have hfill : fillEstimated [⟨"2023Q1", some 100, none, none, some 40, none, none, 0⟩] =
      [⟨"2023Q1", some 100, none, none, some 40, none, none, 0⟩] := by
    rw [fillEstimated]
    simp [Option.getD]
  rw [hfill]
  norm_num [List.any_cons]

/-! ### C3: the combined outer join -/

/-- C3 (amended): when both per-side summaries are non-empty, the combined
table is an outer join on the period key — every purchases-side and every
sales-side period yields a row, and a row missing one side's liability has its
Estimated Liability computed with that side defaulted to 0.  When exactly one
summary is empty (and the filed table is present), the engine instead fails
with a `KeyError`, because the empty-side frame lacks the columns selected for
the combination. -/
theorem C3_outer_join :
    (∀ (sp ssales : List RecSummaryRow) (filed : List FiledRow) (now : Ts)
      (rows : List MergedRow) (d : Option Disclosure), sp ≠ [] → ssales ≠ [] →
      check_disclosures sp ssales (some filed) now = .ok (some (rows, d)) →
      (∀ s ∈ sp, ∃ r ∈ rows, r.period = s.period) ∧
      (∀ s ∈ ssales, ∃ r ∈ rows, r.period = s.period) ∧
      (∀ r ∈ rows, (r.outputLiab = none → r.estLiab = r.inputLiab.getD 0) ∧
        (r.inputLiab = none → r.estLiab = r.outputLiab.getD 0))) ∧
    (∀ (ssales : List RecSummaryRow) (filed : List FiledRow) (now : Ts), ssales ≠ [] →
      check_disclosures [] ssales (some filed) now = .error "KeyError: columns not in index") ∧
    (∀ (sp : List RecSummaryRow) (filed : List FiledRow) (now : Ts), sp ≠ [] →
      check_disclosures sp [] (some filed) now = .error "KeyError: columns not in index") := by
  refine ⟨?_, ?_, ?_⟩
  · intro sp ssales filed now rows d hp hs hok
    rw [check_disclosures_ok sp ssales filed now hp hs] at hok
    have hrows : rows = fillEstimated (outerJoinRec (leftJoinFiled (·.t2) sp filed)
        (leftJoinFiled (·.t1) ssales filed)) := by
      split at hok
      · obtain ⟨h1, -⟩ : _ ∧ _ := by simpa using hok
        exact h1.symm
      · obtain ⟨h1, -⟩ : _ ∧ _ := by simpa using hok
        exact h1.symm
    subst hrows
    refine ⟨?_, ?_, ?_⟩
    · intro s hsmem
      obtain ⟨r1, hr1, hper1⟩ := leftJoinFiled_exists_mem (·.t2) sp filed s hsmem
      obtain ⟨r2, hr2, hper2⟩ := outerJoinRec_left_mem _ (leftJoinFiled (·.t1) ssales filed)
        r1 hr1
      obtain ⟨r3, hr3, hper3⟩ := fillEstimated_period_mem _ r2 hr2
      exact ⟨r3, hr3, by rw [hper3, hper2, hper1]⟩
    · intro s hsmem
      obtain ⟨r1, hr1, hper1⟩ := leftJoinFiled_exists_mem (·.t1) ssales filed s hsmem
      obtain ⟨r2, hr2, hper2⟩ := outerJoinRec_right_mem (leftJoinFiled (·.t2) sp filed) _
        r1 hr1
      obtain ⟨r3, hr3, hper3⟩ := fillEstimated_period_mem _ r2 hr2
      exact ⟨r3, hr3, by rw [hper3, hper2, hper1]⟩
    · intro r hr
      have hest := fillEstimated_est _ r hr
      constructor
      · intro hout
        rw [hest, hout]
        simp
      · intro hinp
        rw [hest, hinp]
        simp
  · intro ssales filed now hs
    have hsse : ssales.isEmpty = false := by
      cases ssales
      · exact absurd rfl hs
      · rfl
    rw [check_disclosures, hsse]
    rfl
  · intro sp filed now hp
    have hspe : sp.isEmpty = false := by
      cases sp
      · exact absurd rfl hp
      · rfl
    rw [check_disclosures, hspe]
    rfl

/-- C3 witness: purchases period `A` and sales period `B`, no filed rows —
both periods appear, each with the missing side defaulted to 0; and the
one-empty-summary cases raise `KeyError`. -/
theorem C3_outer_join_witness :
    ((∀ s ∈ [(⟨"A", 100⟩ : RecSummaryRow)],
      ∃ r ∈ [(⟨"A", some 100, none, none, none, none, none, 0⟩ : MergedRow),
             (⟨"B", none, none, none, some 40, none, none, 0⟩ : MergedRow)],
        r.period = s.period) ∧
     (∀ s ∈ [(⟨"B", 40⟩ : RecSummaryRow)],
      ∃ r ∈ [(⟨"A", some 100, none, none, none, none, none, 0⟩ : MergedRow),
             (⟨"B", none, none, none, some 40, none, none, 0⟩ : MergedRow)],
        r.period = s.period) ∧
     (∀ r ∈ [(⟨"A", some 100, none, none, none, none, none, 0⟩ : MergedRow),
             (⟨"B", none, none, none, some 40, none, none, 0⟩ : MergedRow)],
       (r.outputLiab = none → r.estLiab = r.inputLiab.getD 0) ∧
       (r.inputLiab = none → r.estLiab = r.outputLiab.getD 0))) ∧
    check_disclosures [] [⟨"B", 40⟩] (some [⟨"A", 1, 2⟩]) 0 =
      .error "KeyError: columns not in index" := by
  constructor
  · refine C3_outer_join.1 [⟨"A", 100⟩] [⟨"B", 40⟩] [] 0
      [⟨"A", some 100, none, none, none, none, none, 0⟩,
       ⟨"B", none, none, none, some 40, none, none, 0⟩] none (by simp) (by simp) ?_
    rw [check_disclosures_ok _ _ _ _ (by simp) (by simp)]
    have hjp : leftJoinFiled (·.t2) [⟨"A", 100⟩] ([] : List FiledRow) =
        [⟨"A", 100, none, none⟩] := by
      rw [leftJoinFiled]
      simp
    have hjs : leftJoinFiled (·.t1) [⟨"B", 40⟩] ([] : List FiledRow) =
        [⟨"B", 40, none, none⟩] := by
      rw [leftJoinFiled]
      simp
    rw [hjp, hjs]
    have hout : outerJoinRec [⟨"A", 100, none, none⟩] [⟨"B", 40, none, none⟩] =
        [⟨"A", some 100, none, none, none, none, none, 0⟩,
         ⟨"B", none, none, none, some 40, none, none, 0⟩] := by
      rw [outerJoinRec]
      simp [List.filter_cons]
    rw [hout]
    have hfill : fillEstimated
        [⟨"A", some 100, none, none, none, none, none, 0⟩,
         ⟨"B", none, none, none, some 40, none, none, 0⟩] =
        [⟨"A", some 100, none, none, none, none, none, 0⟩,
         ⟨"B", none, none, none, some 40, none, none, 0⟩] := by
      rw [fillEstimated]
      simp [Option.getD]
    rw [hfill]
    norm_num [List.any_cons]
  · exact C3_outer_join.2.1 [⟨"B", 40⟩] [⟨"A", 1, 2⟩] 0 (by simp)

/-- C3 counterexample: an empty purchases summary with a non-empty sales
summary and a filed table does not produce reconciliation rows — the engine
fails with a `KeyError` on the missing purchases-side columns. -/
theorem C3_counterexample :
    check_disclosures [] [⟨"A", 100⟩] (some [⟨"A", 0, 0⟩]) 0 =
      .error "KeyError: columns not in index" := by
  rw [check_disclosures]
  rfl

/-! ### C9: the FourMonthly policy -/

/-- C9: for every calendar month 1..12 the four-month bucket start
`((month-1) // 4) * 4 + 1` is one of 1, 5, 9 and is monotone non-decreasing in
the month; the `4M` period key string is `{year}-{bucket:02}`; the period
label is `"{start YYYY-MM} to {end YYYY-MM}"` where the end month of
`start + 4 months − 1 day` is `bucket + 3` of the same year; and the `4M`
period assigned to a timestamp buckets its calendar month this way. -/
theorem C9_four_month_policy :
    (∀ m ∈ Finset.Icc 1 12,
      fourMonthBucket m = 1 ∨ fourMonthBucket m = 5 ∨ fourMonthBucket m = 9) ∧
    (∀ m1 ∈ Finset.Icc 1 12, ∀ m2 ∈ Finset.Icc 1 12, m1 ≤ m2 →
      fourMonthBucket m1 ≤ fourMonthBucket m2) ∧
    (∀ y g : ℕ, key4MStr y g = toString y ++ "-" ++ zfill 2 (toString g)) ∧
    (∀ y : ℕ, format4m y 1 = fmtYM y 1 ++ " to " ++ fmtYM y 4 ∧
      format4m y 5 = fmtYM y 5 ++ " to " ++ fmtYM y 8 ∧
      format4m y 9 = fmtYM y 9 ++ " to " ++ fmtYM y 12) ∧
    (∀ t : Ts, periodOf "4M" t = .fourM (tsYear t) (fourMonthBucket (tsMonth t))) := by
  refine ⟨by decide, by decide, fun y g => rfl, fun y => ?_, fun t => by simp [periodOf]⟩
  refine ⟨?_, ?_, ?_⟩ <;>
  · simp [format4m, addMonthsYM, predDay, daysInMonth, fmtYM]

/-- C9 witness: month 6 buckets to 5, and months 3 ≤ 11 bucket monotonically. -/
theorem C9_four_month_policy_witness :
    (fourMonthBucket 6 = 1 ∨ fourMonthBucket 6 = 5 ∨ fourMonthBucket 6 = 9) ∧
    fourMonthBucket 3 ≤ fourMonthBucket 11 :=
  ⟨C9_four_month_policy.1 6 (by decide),
   C9_four_month_policy.2.1 3 (by decide) 11 (by decide) (by decide)⟩

end VatTool
